import Mathlib

/-!
Verification of the `fine_tune_t5.ipynb` notebook (fine-tuning FLAN-T5 for
dialogue summarization on a managed cloud platform).  The notebook is a
linear sequence of cells; each definition below is a shallow embedding of
one cell or helper of the notebook, translated directly from the source.
-/

namespace FineTuneT5

/- ### Random test-example sampling (cells 35-36)

`random_dialogue_idx = randint(0, test_data.shape[0])` followed by
`test_data["dialogue"][random_dialogue_idx]`.  Python's `random.randint(a, b)`
returns an integer `N` with `a <= N <= b`, both ends inclusive. -/

/-- The set of values Python's `randint(a, b)` can return: every integer from
`a` to `b` inclusive. -/
def randintOutcomes (a b : Nat) : List Nat :=
  (List.range (b + 1 - a)).map (fun k => k + a)

/-- Integer-location lookup into a pandas column with the default
`RangeIndex`: defined for `0 <= i < n`, a `KeyError` (here `none`) otherwise. -/
def seriesGet (rows : List String) (i : Nat) : Option String :=
  rows.get? i

/-- The candidate indices drawn by `randint(0, test_data.shape[0])` for a test
table given as its list of dialogue rows. -/
def sampleIdxOutcomes (rows : List String) : List Nat :=
  randintOutcomes 0 rows.length

/-- A concrete three-row test table. -/
def testRows3 : List String := ["dialogue0", "dialogue1", "dialogue2"]

/- ### The notebook as a linear pipeline (cell order)

The cells execute top to bottom: session setup (cells 2-3), dataset download
(cell 5), load/inspect (cells 6-9), upload (cell 10), estimator configuration
and `estimator.fit(..., wait=False)` (cells 13-14), blocking
`estimator.latest_training_job.wait` (cell 18), artifact download (cell 24),
repackaging (cells 26-29), package upload (cell 30), deployment (cells 31-33),
one sample request (cell 36), endpoint deletion (cell 37). -/

inductive Step where
  | configureSession
  | fetchDataset
  | inspectDataset
  | uploadData
  | submitTraining
  | waitCompletion
  | downloadArtifact
  | repackage
  | uploadPackage
  | deployEndpoint
  | sampleRequest
  | teardownEndpoint
deriving DecidableEq

/-- The notebook's cells in execution order. -/
def notebookSteps : List Step :=
  [Step.configureSession, Step.fetchDataset, Step.inspectDataset,
   Step.uploadData, Step.submitTraining, Step.waitCompletion,
   Step.downloadArtifact, Step.repackage, Step.uploadPackage,
   Step.deployEndpoint, Step.sampleRequest, Step.teardownEndpoint]

/-- Position of a step in the notebook. -/
def stepIdx (s : Step) : Nat := notebookSteps.indexOf s

/-- The `wait` keyword passed to `estimator.fit` in cell 14 (`wait=False`):
the submission does not block. -/
def fitWaitArg : Bool := false

/- ### Estimator configuration (cell 13)

The `PyTorch` estimator receives a `hyperparameters` dict of seven entries;
`estimator.fit` (cell 14) submits that dict to the training job as-is. -/

/-- A value in the hyperparameters dict: a string or a number (the notebook's
numbers `3e-3`, `2`, `50`, `2` are exact decimals, embedded as rationals). -/
inductive HPValue where
  | str (v : String)
  | num (v : ℚ)
deriving DecidableEq

/-- The estimator fields the notebook sets in cell 13 (training-relevant
subset; the role, debugger and keep-alive settings carry no mapping). -/
structure Estimator where
  sourceDir : String
  entryPoint : String
  instanceCount : Nat
  instanceType : String
  hyperparameters : List (String × HPValue)

/-- The `hyperparameters` dict of cell 13, entries in source order. -/
def notebookHyperparameters : List (String × HPValue) :=
  [("training_script", HPValue.str "train.py"),
   ("config_file", HPValue.str "ds_zero3.yaml"),
   ("lr", HPValue.num (3 / 1000)),
   ("batch_size", HPValue.num 2),
   ("subsample", HPValue.num 50),
   ("num_epochs", HPValue.num 2),
   ("pretrained_model_name_or_path", HPValue.str "google/flan-t5-large")]

/-- The estimator constructed in cell 13. -/
def estimator : Estimator :=
  { sourceDir := "src/train"
    entryPoint := "acc_launcher.py"
    instanceCount := 1
    instanceType := "ml.g5.24xlarge"
    hyperparameters := notebookHyperparameters }

/-- `estimator.fit` submits the estimator's hyperparameters mapping to the
training job without transforming it (the notebook performs no local
interpretation of the dict). -/
def trainingJobHyperparameters (e : Estimator) : List (String × HPValue) :=
  e.hyperparameters

/-- The five keys the claim says the mapping consists of: learning rate,
batch size, epoch count, subsample percentage, model identifier. -/
def claimedHPKeys : List String :=
  ["lr", "batch_size", "num_epochs", "subsample",
   "pretrained_model_name_or_path"]

/- ### Dataset-file lifecycle (cells 5, 6, 10, 30)

Cell 5 downloads the train and test JSON-lines files, cell 6 reads each into
a dataframe, cell 10 uploads only the train file, cell 30 uploads the
repackaged model tarball.  No other fetch/read/upload of these files occurs. -/

inductive DataFile where
  | trainJsonl
  | testJsonl
  | modelTarball
deriving DecidableEq

inductive DataEvent where
  | fetch (f : DataFile)
  | read (f : DataFile)
  | upload (f : DataFile)
deriving DecidableEq

/-- Every fetch/read/upload of a data file performed by the notebook, in cell
order. -/
def dataEvents : List DataEvent :=
  [DataEvent.fetch DataFile.trainJsonl,
   DataEvent.fetch DataFile.testJsonl,
   DataEvent.read DataFile.trainJsonl,
   DataEvent.read DataFile.testJsonl,
   DataEvent.upload DataFile.trainJsonl,
   DataEvent.upload DataFile.modelTarball]

/-- How many times the notebook performs a given data event. -/
def dataEventCount (e : DataEvent) : Nat := dataEvents.count e

/- ### Inference request/response payloads (cells 31, 36)

The predictor is built with a JSON serializer and deserializer, so the Python
dict handed to `hf_predictor.predict` is sent as the JSON request body, and
the JSON response body comes back as a Python dict.  Cell 36 builds
`{"inputs": [random_dialogue], "parameters": {"max_length": 100}}` and reads
`output["outputs"][0]["summary_text"]`. -/

/-- A Python value as serialized to / deserialized from JSON. -/
inductive PyVal where
  | pstr (v : String)
  | pnum (v : Int)
  | plist (items : List PyVal)
  | pdict (fields : List (String × PyVal))

/-- Dict key lookup (`d[k]`), `none` for a missing key. -/
def dictLookup (fields : List (String × PyVal)) (k : String) : Option PyVal :=
  match fields with
  | [] => none
  | (k', v) :: rest => if k' = k then some v else dictLookup rest k

/-- The request payload cell 36 passes to `hf_predictor.predict` for a
sampled dialogue. -/
def predictPayload (dialogue : String) : PyVal :=
  PyVal.pdict
    [("inputs", PyVal.plist [PyVal.pstr dialogue]),
     ("parameters", PyVal.pdict [("max_length", PyVal.pnum 100)])]

/-- Whether a value is a JSON string. -/
def isStrVal (v : PyVal) : Bool :=
  match v with
  | PyVal.pstr _ => true
  | _ => false

/-- The request shape stated by the spec: an object of exactly the keys
`inputs` (an array of texts) and `parameters` (an object). -/
def matchesRequestShape (v : PyVal) : Bool :=
  match v with
  | PyVal.pdict [("inputs", PyVal.plist items), ("parameters", PyVal.pdict _)] =>
      items.all isStrVal
  | _ => false

/-- The notebook's read of the response,
`output["outputs"][0]["summary_text"]`: `none` where the Python chain would
raise. -/
def extractSummary (resp : PyVal) : Option PyVal :=
  match resp with
  | PyVal.pdict fields =>
      match dictLookup fields "outputs" with
      | some (PyVal.plist (first :: _)) =>
          match first with
          | PyVal.pdict f2 => dictLookup f2 "summary_text"
          | _ => none
      | _ => none
  | _ => none

/-- Modelled from the spec: a response of the documented form
`\x7b"outputs": [\x7b"summary_text": text\x7d]\x7d` (the endpoint itself is
an external collaborator; its reply shape is taken from the spec). -/
def specResponse (summary : String) : PyVal :=
  PyVal.pdict
    [("outputs", PyVal.plist [PyVal.pdict [("summary_text", PyVal.pstr summary)]])]

/- ### Error propagation (cells 14, 18, 30, 33, 36, 37)

No cell of the notebook contains a `try`/`except`, a retry loop, or any
cleanup on failure, so each external SDK call is embedded as an `Except` outcome
and the run is the plain sequencing of those outcomes: the first error stops
the run and is returned as-is, and the record of already-completed calls is
left untouched. -/

/-- The outcome of each external SDK call the notebook issues, in order:
`estimator.fit`, `latest_training_job.wait`, `sess.upload_data` for the
package, `deploy_model`, `hf_predictor.predict`, `delete_endpoint`. -/
structure SdkOutcomes where
  fitCall : Except String Unit
  waitCall : Except String Unit
  uploadCall : Except String Unit
  deployCall : Except String Unit
  predictCall : Except String Unit
  deleteCall : Except String Unit

/-- Run one SDK call: an error ends the run with that very error and the
completed-call record as it stands; success records the call and continues. -/
def stepRun (name : String) (r : Except String Unit) (done : List String)
    (k : List String → Except String Unit × List String) :
    Except String Unit × List String :=
  match r with
  | Except.error e => (Except.error e, done)
  | Except.ok _ => k (done ++ [name])

/-- The notebook's SDK-call sequence as straight-line sequencing with no
recovery, retry, classification, or rollback. -/
def runSdkFlow (c : SdkOutcomes) : Except String Unit × List String :=
  stepRun "fit" c.fitCall [] (fun d1 =>
    stepRun "wait" c.waitCall d1 (fun d2 =>
      stepRun "upload" c.uploadCall d2 (fun d3 =>
        stepRun "deploy" c.deployCall d3 (fun d4 =>
          stepRun "predict" c.predictCall d4 (fun d5 =>
            stepRun "delete" c.deleteCall d5 (fun d6 =>
              (Except.ok (), d6)))))))

/-- An outcome assignment whose very first SDK call fails. -/
def failingFitOutcomes : SdkOutcomes :=
  { fitCall := Except.error "AccessDenied"
    waitCall := Except.ok ()
    uploadCall := Except.ok ()
    deployCall := Except.ok ()
    predictCall := Except.ok ()
    deleteCall := Except.ok () }

/- ### Endpoint naming, deployment, request and teardown (cells 31-33, 36-37)

`hf_endpoint_name = sagemaker.utils.name_from_base("t5-summarization")`
derives a fresh name from the base; `deploy_model` creates exactly one
endpoint under that name and returns a predictor bound to the same name; the
sample request and `delete_endpoint` go through that predictor. -/

/-- `sagemaker.utils.name_from_base(base)`: the base plus a freshly generated
unique suffix (a timestamp), joined with a dash. -/
def nameFromBase (base uniqueSuffix : String) : String :=
  base ++ "-" ++ uniqueSuffix

/-- What `deploy_model` leaves behind: the endpoints it created and the
endpoint name bound into the returned predictor. -/
structure DeployedPredictor where
  createdEndpoints : List String
  predictorEndpoint : String

/-- `deploy_model` (cell 31): one `model.deploy` under `endpoint_name`, and a
`sagemaker.Predictor` bound to the same `endpoint_name`. -/
def deployModel (endpointName : String) : DeployedPredictor :=
  { createdEndpoints := [endpointName], predictorEndpoint := endpointName }

/-- The endpoint-level operations of one run. -/
inductive EndpointOp where
  | create (n : String)
  | invoke (n : String)
  | delete (n : String)

/-- The endpoint name an operation targets. -/
def endpointOpTarget (op : EndpointOp) : String :=
  match op with
  | EndpointOp.create n => n
  | EndpointOp.invoke n => n
  | EndpointOp.delete n => n

/-- Whether an operation creates an endpoint. -/
def isCreateOp (op : EndpointOp) : Bool :=
  match op with
  | EndpointOp.create _ => true
  | _ => false

/-- The endpoint operations of one notebook run, given the unique suffix the
platform generates for `name_from_base`: deploy under the fresh name
(cell 33), one sample request through the returned predictor (cell 36),
deletion through the same predictor (cell 37). -/
def endpointTrace (uniqueSuffix : String) : List EndpointOp :=
  let n := nameFromBase "t5-summarization" uniqueSuffix
  let pred := deployModel n
  (pred.createdEndpoints.map EndpointOp.create) ++
    [EndpointOp.invoke pred.predictorEndpoint,
     EndpointOp.delete pred.predictorEndpoint]

/- ### Deployment package assembly (cells 26-30)

Cell 26 extracts the downloaded training-artifact tarball into the
`src/inference` directory, cell 27 writes `serving.properties` there, and
cell 29 runs `tar czvf model.tar.gz inference/` from inside `src/`.  A
directory is embedded as the list of its file paths. -/

/-- Modelled from the spec: the repository's `src/inference` directory (its
files are referenced from the notebook but are not included under the
provided sources) holds the inference code `model.py` and the dependency
list `requirements.txt`. -/
def inferenceCodeFiles : List String := ["model.py", "requirements.txt"]

/-- `tar.extractall("src/inference/")` (cell 26): the archive's entries land
inside the directory next to its existing files. -/
def extractall (dirFiles archiveEntries : List String) : List String :=
  dirFiles ++ archiveEntries

/-- Writing one new file into a directory (cell 27). -/
def writeNewFile (dirFiles : List String) (name : String) : List String :=
  dirFiles ++ [name]

/-- `tar czvf model.tar.gz inference/` (cell 29): the archive's entries are
the directory's files under the directory's path. -/
def tarDirectory (dirName : String) (files : List String) : List String :=
  files.map (fun f => dirName ++ "/" ++ f)

/-- The repackaging pipeline of cells 26-29 applied to the entries of the
downloaded training-artifact archive. -/
def deploymentPackage (artifactEntries : List String) : List String :=
  tarDirectory "inference"
    (writeNewFile (extractall inferenceCodeFiles artifactEntries)
      ("serving.properties"))

/- ### serving.properties generation (cells 26-27)

`model_id = os.path.dirname(contents[-1])` over `contents = tar.getnames()`,
then `f.write(f"engine=Python\noption.model_id={model_id}\n    ")` (the four
trailing spaces are the f-string's closing indentation). -/

/-- `os.path.dirname`, step 1: `p.rfind('/') + 1` (0 when there is no
slash), scanning with the current position and the best match so far. -/
def lastSlashEnd (cs : List Char) (i acc : Nat) : Nat :=
  match cs with
  | [] => acc
  | c :: rest => lastSlashEnd rest (i + 1) (if c = '/' then i + 1 else acc)

/-- `str.rstrip('/')`. -/
def rstripSlashes (cs : List Char) : List Char :=
  (cs.reverse.dropWhile (fun c => c == '/')).reverse

/-- `os.path.dirname` on posix paths: everything before the final slash,
with trailing slashes stripped unless that head is empty or all slashes. -/
def posixDirname (p : List Char) : List Char :=
  let head := p.take (lastSlashEnd p 0 0)
  if head.isEmpty || head.all (fun c => c == '/') then head
  else rstripSlashes head

/-- The `model_id` of cell 26: `os.path.dirname(contents[-1])` over the
archive's listed entries (`contents[-1]` raises on an empty listing, which
the theorems exclude by hypothesis). -/
def modelIdOf (contents : List (List Char)) : List Char :=
  posixDirname (contents.getLastD [])

/-- The exact text cell 27 writes to `serving.properties`. -/
def servingPropsChars (modelId : List Char) : List Char :=
  "engine=Python\noption.model_id=".data ++ modelId ++ "\n    ".data

/-- Split a character stream at newlines. -/
def splitLines (cs : List Char) : List (List Char) :=
  match cs with
  | [] => [[]]
  | c :: rest =>
      if c = '\n' then [] :: splitLines rest
      else
        match splitLines rest with
        | [] => [[c]]
        | l :: ls => (c :: l) :: ls

/-- Read one properties line as the key before the first `=` and the value
after it. -/
def parsePropLine (line : List Char) : List Char × List Char :=
  (line.takeWhile (fun c => c != '='),
   (line.dropWhile (fun c => c != '=')).drop 1)

/-- A training-artifact listing whose entries sit in a `mymodel` folder. -/
def sampleTarContents : List (List Char) :=
  ["mymodel/adapter_config.json".data, "mymodel/adapter_model.bin".data]

/- ### Object-storage destinations (cells 3, 10, 13, 30)

`bucket = sess.default_bucket()` and
`s3_key_prefix = "flan-t5-finetune-for-dialogue"` (cell 3); every configured
destination is built from these two. -/

/-- The notebook's fixed folder within the bucket (`s3_key_prefix` in
cell 3). -/
def s3FolderKey : String := "flan-t5-finetune-for-dialogue"

/-- A bucket/key target in object storage. -/
structure S3Destination where
  bucket : String
  key : String

/-- Destination of the training-data upload (cell 10): the session's default
bucket, key folder `{s3_key_prefix}/data`. -/
def dataUploadDest (defaultBucket : String) : S3Destination :=
  { bucket := defaultBucket, key := s3FolderKey ++ "/data" }

/-- Destination of the deployment-package upload (cell 30): the session's
default bucket, key folder `{s3_key_prefix}/model`. -/
def modelUploadDest (defaultBucket : String) : S3Destination :=
  { bucket := defaultBucket, key := s3FolderKey ++ "/model" }

/-- The `s3_output_path` URL built for `TensorBoardOutputConfig` (cell 13):
`s3://{bucket}/{s3_key_prefix}/tensorboard`. -/
def tensorboardOutputPath (defaultBucket : List Char) : List Char :=
  "s3://".data ++ defaultBucket ++ "/".data ++ s3FolderKey.data ++
    "/tensorboard".data

/-- Read an `s3://bucket/key` URL back into its bucket and key parts. -/
def parseS3Uri (cs : List Char) : Option (List Char × List Char) :=
  if cs.take 5 = "s3://".data then
    some ((cs.drop 5).takeWhile (fun c => c != '/'),
          ((cs.drop 5).dropWhile (fun c => c != '/')).drop 1)
  else none

end FineTuneT5

namespace FineTuneT5

/-- Claim C1: the notebook draws the sample index with
`randint(0, test_data.shape[0])`, whose upper end is inclusive, so for a
three-row test table the draw `3` is a possible outcome and the subsequent
lookup of the dialogue column at index 3 fails. -/
theorem random_sample_index_can_exceed_rows :
    3 ∈ sampleIdxOutcomes testRows3 ∧ seriesGet testRows3 3 = none := by
  decide

/-- Claim C2: the notebook executes as a linear pipeline in the claimed fixed
order; in particular the blocking wait on job completion comes strictly after
the non-blocking submission (`wait=False`) and strictly before artifact
download and endpoint deployment, and each stage occurs exactly once. -/
theorem notebook_pipeline_order :
    fitWaitArg = false ∧
    stepIdx Step.configureSession < stepIdx Step.fetchDataset ∧
    stepIdx Step.fetchDataset < stepIdx Step.uploadData ∧
    stepIdx Step.uploadData < stepIdx Step.submitTraining ∧
    stepIdx Step.submitTraining < stepIdx Step.waitCompletion ∧
    stepIdx Step.waitCompletion < stepIdx Step.downloadArtifact ∧
    stepIdx Step.downloadArtifact < stepIdx Step.repackage ∧
    stepIdx Step.repackage < stepIdx Step.deployEndpoint ∧
    stepIdx Step.waitCompletion < stepIdx Step.deployEndpoint ∧
    stepIdx Step.deployEndpoint < stepIdx Step.sampleRequest ∧
    stepIdx Step.sampleRequest < stepIdx Step.teardownEndpoint ∧
    notebookSteps.count Step.sampleRequest = 1 ∧
    notebookSteps.Nodup := by
  decide

/-- Claim C3 counterexample: the mapping handed to the training job does not
consist only of the five claimed hyperparameters — it also carries the
launcher entry `training_script`, which is none of learning rate, batch size,
epoch count, subsample percentage, or model identifier. -/
theorem hyperparameters_beyond_claimed_keys :
    ¬ (∀ k ∈ (trainingJobHyperparameters estimator).map Prod.fst,
        k ∈ claimedHPKeys) := by
  decide

/-- Claim C3 (amended): the configuration mapping handed to the training job
is the estimator's hyperparameters dict passed unchanged; it carries the five
training hyperparameters with their source values, plus the two launcher
entries `training_script` and `config_file`. -/
theorem hyperparameters_mapping_passed_unchanged :
    trainingJobHyperparameters estimator = notebookHyperparameters ∧
    notebookHyperparameters.map Prod.fst =
      ["training_script", "config_file", "lr", "batch_size", "subsample",
       "num_epochs", "pretrained_model_name_or_path"] ∧
    notebookHyperparameters.lookup "lr" = some (HPValue.num (3 / 1000)) ∧
    notebookHyperparameters.lookup "batch_size" = some (HPValue.num 2) ∧
    notebookHyperparameters.lookup "num_epochs" = some (HPValue.num 2) ∧
    notebookHyperparameters.lookup "subsample" = some (HPValue.num 50) ∧
    notebookHyperparameters.lookup "pretrained_model_name_or_path" =
      some (HPValue.str "google/flan-t5-large") := by
  refine ⟨rfl, by decide, ?_, ?_, ?_, ?_, ?_⟩ <;> rfl

/-- Claim C7 counterexample: the test JSON-lines file is not uploaded to
object storage once — the notebook never uploads it (cell 10 uploads only the
train file). -/
theorem test_data_never_uploaded :
    ¬ dataEventCount (DataEvent.upload DataFile.testJsonl) = 1 := by
  decide

/-- Claim C7 (amended): each downloaded JSON-lines dataset file is fetched
once and read into a table once; the train file is uploaded to object storage
once, while the test file is never uploaded (it is only used locally to drive
the sample inference request); no other mutation of either file occurs. -/
theorem dataset_file_lifecycle_counts :
    dataEventCount (DataEvent.fetch DataFile.trainJsonl) = 1 ∧
    dataEventCount (DataEvent.fetch DataFile.testJsonl) = 1 ∧
    dataEventCount (DataEvent.read DataFile.trainJsonl) = 1 ∧
    dataEventCount (DataEvent.read DataFile.testJsonl) = 1 ∧
    dataEventCount (DataEvent.upload DataFile.trainJsonl) = 1 ∧
    dataEventCount (DataEvent.upload DataFile.testJsonl) = 0 := by
  decide

/-- Claim C5: the one request the notebook sends to the endpoint has the
documented shape with keys `inputs` (an array holding the dialogue text) and
`parameters`, and on a response of the documented shape the notebook's read
`output["outputs"][0]["summary_text"]` yields exactly the summary text of the
first element of `outputs`. -/
theorem predict_payload_and_summary_extraction (dialogue summary : String) :
    matchesRequestShape (predictPayload dialogue) = true ∧
    extractSummary (specResponse summary) = some (PyVal.pstr summary) := by
  constructor
  · rfl
  · rfl

/-- Claim C6: in the notebook's straight-line sequencing of SDK calls, a
failure of any call — the earlier calls having succeeded — ends the run with
that exact error and leaves the record of completed calls exactly as it was
(nothing is retried, classified, rolled back or repaired). -/
theorem sdk_errors_propagate_unchanged (c : SdkOutcomes) (e : String) :
    (c.fitCall = Except.error e →
      runSdkFlow c = (Except.error e, [])) ∧
    (c.fitCall = Except.ok () → c.waitCall = Except.error e →
      runSdkFlow c = (Except.error e, ["fit"])) ∧
    (c.fitCall = Except.ok () → c.waitCall = Except.ok () →
      c.uploadCall = Except.error e →
      runSdkFlow c = (Except.error e, ["fit", "wait"])) ∧
    (c.fitCall = Except.ok () → c.waitCall = Except.ok () →
      c.uploadCall = Except.ok () → c.deployCall = Except.error e →
      runSdkFlow c = (Except.error e, ["fit", "wait", "upload"])) ∧
    (c.fitCall = Except.ok () → c.waitCall = Except.ok () →
      c.uploadCall = Except.ok () → c.deployCall = Except.ok () →
      c.predictCall = Except.error e →
      runSdkFlow c = (Except.error e, ["fit", "wait", "upload", "deploy"])) ∧
    (c.fitCall = Except.ok () → c.waitCall = Except.ok () →
      c.uploadCall = Except.ok () → c.deployCall = Except.ok () →
      c.predictCall = Except.ok () → c.deleteCall = Except.error e →
      runSdkFlow c =
        (Except.error e, ["fit", "wait", "upload", "deploy", "predict"])) := by
  refine ⟨?_, ?_, ?_, ?_, ?_, ?_⟩ <;>
    intros <;> simp_all [runSdkFlow, stepRun]

/-- Witness for C6: a run whose `estimator.fit` raises `AccessDenied` returns
that very error with no completed calls recorded. -/
theorem sdk_errors_propagate_unchanged_witness :
    runSdkFlow failingFitOutcomes = (Except.error "AccessDenied", []) :=
  (sdk_errors_propagate_unchanged failingFitOutcomes "AccessDenied").1 rfl

/-- Claim C10: one run creates exactly one endpoint, its name is derived from
the base `t5-summarization` by appending a fresh suffix, and every endpoint
operation of the run — creation, the sample request, and the teardown —
targets that same name. -/
theorem endpoint_single_lifecycle (uniqueSuffix : String) :
    (endpointTrace uniqueSuffix).countP isCreateOp = 1 ∧
    ((endpointTrace uniqueSuffix).all (fun op =>
        endpointOpTarget op == nameFromBase "t5-summarization" uniqueSuffix))
      = true ∧
    (∃ s, nameFromBase "t5-summarization" uniqueSuffix =
        "t5-summarization" ++ s) := by
  refine ⟨?_, ?_, ⟨"-" ++ uniqueSuffix, rfl⟩⟩
  · rfl
  · simp [endpointTrace, deployModel, endpointOpTarget]

/-- `takeWhile` runs through a block of satisfying elements and stops at the
first failing one. -/
theorem takeWhile_append_cons {α : Type} (p : α → Bool) (xs : List α) (y : α)
    (ys : List α) (hxs : ∀ x ∈ xs, p x = true) (hy : p y = false) :
    (xs ++ y :: ys).takeWhile p = xs := by
  induction xs with
  | nil => simp [List.takeWhile_cons, hy]
  | cons a as ih =>
      simp [List.takeWhile_cons, hxs a (by simp),
        ih (fun x hx => hxs x (by simp [hx]))]

/-- `dropWhile` drops a block of satisfying elements and keeps everything
from the first failing one. -/
theorem dropWhile_append_cons {α : Type} (p : α → Bool) (xs : List α) (y : α)
    (ys : List α) (hxs : ∀ x ∈ xs, p x = true) (hy : p y = false) :
    (xs ++ y :: ys).dropWhile p = y :: ys := by
  induction xs with
  | nil => simp [List.dropWhile_cons, hy]
  | cons a as ih =>
      simp [List.dropWhile_cons, hxs a (by simp),
        ih (fun x hx => hxs x (by simp [hx]))]

/-- Splitting at newlines peels off a newline-free first line. -/
theorem splitLines_append (a rest : List Char) (h : ∀ c ∈ a, ¬ c = '\n') :
    splitLines (a ++ '\n' :: rest) = a :: splitLines rest := by
  induction a with
  | nil => simp [splitLines]
  | cons c as ih =>
      have hc : ¬ c = '\n' := h c (by simp)
      have ih' := ih (fun x hx => h x (by simp [hx]))
      simp only [List.cons_append, splitLines, if_neg hc, List.append_eq, ih']

/-- A newline-free stream is a single line. -/
theorem splitLines_no_newline (a : List Char) (h : ∀ c ∈ a, ¬ c = '\n') :
    splitLines a = [a] := by
  induction a with
  | nil => rfl
  | cons c as ih =>
      have hc : ¬ c = '\n' := h c (by simp)
      have ih' := ih (fun x hx => h x (by simp [hx]))
      simp only [splitLines, if_neg hc, ih']

/-- `rfind('/') + 1` stays at its accumulator on slash-free input. -/
theorem lastSlashEnd_no_slash (p : List Char) (h : ∀ c ∈ p, ¬ c = '/') :
    ∀ i acc, lastSlashEnd p i acc = acc := by
  induction p with
  | nil => intro i acc; rfl
  | cons c rest ih =>
      intro i acc
      have hc : ¬ c = '/' := h c (by simp)
      simp only [lastSlashEnd, if_neg hc]
      exact ih (fun x hx => h x (by simp [hx])) (i + 1) acc

/-- `os.path.dirname` of a slash-free path is the empty string. -/
theorem posixDirname_no_slash (p : List Char) (h : ∀ c ∈ p, ¬ c = '/') :
    posixDirname p = [] := by
  simp [posixDirname, lastSlashEnd_no_slash p h]

/-- `rstrip` keeps only characters of the input. -/
theorem rstripSlashes_subset (l : List Char) :
    ∀ c ∈ rstripSlashes l, c ∈ l := by
  intro c hc
  unfold rstripSlashes at hc
  rw [List.mem_reverse] at hc
  have h2 := (List.dropWhile_sublist _).subset hc
  rwa [List.mem_reverse] at h2

/-- `os.path.dirname` keeps only characters of the input. -/
theorem mem_posixDirname {c : Char} {p : List Char}
    (h : c ∈ posixDirname p) : c ∈ p := by
  have hin : c ∈ p.take (lastSlashEnd p 0 0) := by
    simp only [posixDirname] at h
    split at h
    · exact h
    · exact rstripSlashes_subset _ c h
  exact List.mem_of_mem_take hin

/-- An `s3://bucket/key` URL parses back into its slash-free bucket and its
key. -/
theorem parseS3Uri_append (b k : List Char) (hb : ∀ c ∈ b, ¬ c = '/') :
    parseS3Uri ("s3://".data ++ (b ++ '/' :: k)) = some (b, k) := by
  have htake : ("s3://".data ++ (b ++ '/' :: k)).take 5 = "s3://".data :=
    List.take_left ("s3://".data) (b ++ '/' :: k)
  have hdrop : ("s3://".data ++ (b ++ '/' :: k)).drop 5 = b ++ '/' :: k :=
    List.drop_left ("s3://".data) (b ++ '/' :: k)
  unfold parseS3Uri
  rw [if_pos htake, hdrop,
    takeWhile_append_cons _ _ _ _ (fun x hx => by simpa using hb x hx)
      (by decide),
    dropWhile_append_cons _ _ _ _ (fun x hx => by simpa using hb x hx)
      (by decide)]
  rfl

/-- Claim C4: the deployment package is the `inference/` directory archived
whole: it contains the inference code `inference/model.py`, the dependency
list `inference/requirements.txt`, the generated properties file
`inference/serving.properties`, and — nested one directory deeper — every
file of the model-artifact directory extracted from the training job's
output archive. -/
theorem deployment_package_layout (modelDir : String)
    (artifactFiles : List String) :
    "inference/model.py" ∈
      deploymentPackage (artifactFiles.map (fun f => modelDir ++ "/" ++ f)) ∧
    "inference/requirements.txt" ∈
      deploymentPackage (artifactFiles.map (fun f => modelDir ++ "/" ++ f)) ∧
    "inference/serving.properties" ∈
      deploymentPackage (artifactFiles.map (fun f => modelDir ++ "/" ++ f)) ∧
    ∀ f ∈ artifactFiles,
      "inference" ++ "/" ++ (modelDir ++ "/" ++ f) ∈
        deploymentPackage (artifactFiles.map (fun f => modelDir ++ "/" ++ f)) := by
  refine ⟨?_, ?_, ?_, ?_⟩
  · simp only [deploymentPackage, tarDirectory]
    exact List.mem_map.mpr ⟨"model.py",
      by simp [extractall, writeNewFile, inferenceCodeFiles], rfl⟩
  · simp only [deploymentPackage, tarDirectory]
    exact List.mem_map.mpr ⟨"requirements.txt",
      by simp [extractall, writeNewFile, inferenceCodeFiles], rfl⟩
  · simp only [deploymentPackage, tarDirectory]
    exact List.mem_map.mpr ⟨"serving.properties",
      by simp [extractall, writeNewFile, inferenceCodeFiles], rfl⟩
  · intro f hf
    simp only [deploymentPackage, tarDirectory, extractall, writeNewFile]
    exact List.mem_map.mpr ⟨modelDir ++ "/" ++ f,
      List.mem_append_left _
        (List.mem_append_right _ (List.mem_map_of_mem _ hf)), rfl⟩

/-- Witness for C4: for an artifact directory `mymodel` holding
`adapter_config.json`, the package holds the inference code and the nested
artifact file. -/
theorem deployment_package_layout_witness :
    "inference/model.py" ∈
      deploymentPackage (["adapter_config.json"].map
        (fun f => "mymodel" ++ "/" ++ f)) ∧
    "inference" ++ "/" ++ ("mymodel" ++ "/" ++ "adapter_config.json") ∈
      deploymentPackage (["adapter_config.json"].map
        (fun f => "mymodel" ++ "/" ++ f)) :=
  ⟨(deployment_package_layout "mymodel" ["adapter_config.json"]).1,
   (deployment_package_layout "mymodel" ["adapter_config.json"]).2.2.2
     ("adapter_config.json") (by simp)⟩

/-- Claim C8: the generated `serving.properties` consists of the line
`engine=Python`, the line `option.model_id=` followed by
`os.path.dirname` of the archive's last listed entry, and the f-string's
trailing indentation; and when that last entry is a top-level file (no
slash), the model id is the empty string. -/
theorem serving_properties_contents (contents : List (List Char))
    (_hne : contents ≠ []) (hn : ('\n') ∉ contents.getLastD []) :
    splitLines (servingPropsChars (modelIdOf contents)) =
      ["engine=Python".data,
       "option.model_id=".data ++ modelIdOf contents,
       "    ".data] ∧
    parsePropLine ("engine=Python".data) = ("engine".data, "Python".data) ∧
    parsePropLine ("option.model_id=".data ++ modelIdOf contents) =
      ("option.model_id".data, modelIdOf contents) ∧
    (('/') ∉ contents.getLastD [] → modelIdOf contents = []) := by
  have hmid : ∀ c ∈ modelIdOf contents, ¬ c = '\n' := by
    intro c hc heq
    subst heq
    exact hn (mem_posixDirname hc)
  have ha2 : ∀ c ∈ "option.model_id=".data ++ modelIdOf contents,
      ¬ c = '\n' := by
    intro c hc
    rcases List.mem_append.mp hc with h1 | h2
    · intro heq
      subst heq
      exact absurd h1 (by decide)
    · exact hmid c h2
  refine ⟨?_, by decide, ?_, ?_⟩
  · have e1 : servingPropsChars (modelIdOf contents) =
        "engine=Python".data ++ '\n' ::
          ("option.model_id=".data ++
            (modelIdOf contents ++ '\n' :: "    ".data)) := by
      have hA : "engine=Python\noption.model_id=".data =
          "engine=Python".data ++ '\n' :: "option.model_id=".data := by decide
      have hB : "\n    ".data = '\n' :: "    ".data := by decide
      rw [servingPropsChars, hA, hB]
      simp [List.append_assoc]
    have e2 : "option.model_id=".data ++
        (modelIdOf contents ++ '\n' :: "    ".data) =
        ("option.model_id=".data ++ modelIdOf contents) ++
          '\n' :: "    ".data := by
      simp [List.append_assoc]
    have e3 : splitLines ("    ".data) = ["    ".data] := by decide
    rw [e1, splitLines_append _ _ (by decide), e2,
      splitLines_append _ _ ha2, e3]
  · have hsplit : "option.model_id=".data ++ modelIdOf contents =
        "option.model_id".data ++ '=' :: modelIdOf contents := by
      have h1 : "option.model_id=".data =
          "option.model_id".data ++ ['='] := by decide
      rw [h1, List.append_assoc]
      rfl
    unfold parsePropLine
    rw [hsplit,
      takeWhile_append_cons _ _ _ _ (by decide) (by decide),
      dropWhile_append_cons _ _ _ _ (by decide) (by decide)]
    rfl
  · intro hslash
    exact posixDirname_no_slash _
      (fun c hc heq => hslash (heq ▸ hc))

/-- Witness for C8: the sample artifact listing under `mymodel` yields the
`engine=Python` line and model id `mymodel`. -/
theorem serving_properties_contents_witness :
    sampleTarContents ≠ [] ∧
    (splitLines (servingPropsChars (modelIdOf sampleTarContents)) =
        ["engine=Python".data,
         "option.model_id=".data ++ modelIdOf sampleTarContents,
         "    ".data] ∧
      parsePropLine ("engine=Python".data) =
        ("engine".data, "Python".data) ∧
      parsePropLine ("option.model_id=".data ++ modelIdOf sampleTarContents) =
        ("option.model_id".data, modelIdOf sampleTarContents) ∧
      (('/') ∉ sampleTarContents.getLastD [] →
        modelIdOf sampleTarContents = [])) :=
  ⟨by decide,
   serving_properties_contents sampleTarContents (by decide) (by decide)⟩

/-- Claim C9: the notebook's configured object-storage destinations — the
training-data upload, the deployment-package upload, and the TensorBoard
output — all target the session's default bucket under the fixed folder
`flan-t5-finetune-for-dialogue`, in its `data`, `model` and `tensorboard`
subfolders respectively. -/
theorem uploads_target_default_bucket_and_folder (b : String)
    (hb : ∀ c ∈ b.data, ¬ c = '/') :
    (dataUploadDest b).bucket = b ∧
    ((s3FolderKey.data).isPrefixOf ((dataUploadDest b).key).data) = true ∧
    (dataUploadDest b).key = s3FolderKey ++ "/data" ∧
    (modelUploadDest b).bucket = b ∧
    ((s3FolderKey.data).isPrefixOf ((modelUploadDest b).key).data) = true ∧
    (modelUploadDest b).key = s3FolderKey ++ "/model" ∧
    parseS3Uri (tensorboardOutputPath b.data) =
      some (b.data, s3FolderKey.data ++ "/tensorboard".data) := by
  refine ⟨rfl, ?_, rfl, rfl, ?_, rfl, ?_⟩
  · show (s3FolderKey.data).isPrefixOf ((s3FolderKey ++ "/data").data) = true
    decide
  · show (s3FolderKey.data).isPrefixOf ((s3FolderKey ++ "/model").data) = true
    decide
  have hslash : "/".data = ['/'] := by decide
  have e1 : tensorboardOutputPath b.data =
      "s3://".data ++
        (b.data ++ '/' :: (s3FolderKey.data ++ "/tensorboard".data)) := by
    rw [tensorboardOutputPath, hslash]
    simp [List.append_assoc]
  rw [e1]
  exact parseS3Uri_append b.data _ hb

/-- Witness for C9: instantiated at a slash-free default bucket name. -/
theorem uploads_target_default_bucket_and_folder_witness :
    (dataUploadDest "my-default-bucket").bucket = "my-default-bucket" ∧
    ((s3FolderKey.data).isPrefixOf
      ((dataUploadDest "my-default-bucket").key).data) = true ∧
    (dataUploadDest "my-default-bucket").key = s3FolderKey ++ "/data" ∧
    (modelUploadDest "my-default-bucket").bucket = "my-default-bucket" ∧
    ((s3FolderKey.data).isPrefixOf
      ((modelUploadDest "my-default-bucket").key).data) = true ∧
    (modelUploadDest "my-default-bucket").key = s3FolderKey ++ "/model" ∧
    parseS3Uri (tensorboardOutputPath ("my-default-bucket").data) =
      some (("my-default-bucket").data,
        s3FolderKey.data ++ "/tensorboard".data) :=
  uploads_target_default_bucket_and_folder "my-default-bucket" (by decide)

end FineTuneT5
